import Mathlib

/-!
Verification of the 7Semi TMP11x Arduino driver (`TMP11x_7Semi` class,
`7Semi_TMP11x.h` / `7Semi_TMP11x.cpp`).

The driver is embedded shallowly:

* The I2C transport collaborator is a `Bus`: an oracle giving, for each
  device address and transaction index, the response of the bus to a
  register read (`readAt`, `none` = transport failure) or a register
  write (`writeAt`, `false` = transport failure).  Every register
  transaction and every fixed delay the driver performs is recorded in a
  trace of `Ev` events, so transaction counts, ordering and addressing
  are provable.
* The facade's private members (`TwoWire *i2c`, `uint8_t address`) are a
  `Facade` record.  The source assigns these members only in the
  constructor and in `begin`; accordingly only `begin` returns an
  updated `Facade`.
* `uint16_t` values are `Nat` reduced mod 2^16 where the source
  truncates; `int16_t` is `Int` via two's complement.
* Temperature conversions use `float` in the source, but every operation
  involved is exact in IEEE binary32 on the relevant domain (an `int16`
  is exact in binary32, and multiplying or dividing by the constant
  0.0078125 = 2^-7 only shifts the exponent), so the exact rationals ℚ
  are a faithful model.  The float-to-`int16_t` cast truncates toward
  zero, modelled by `truncQ`.
-/

namespace TMP11x

/-- TMP116/TMP117 register map constant (source: `REG_TEMP`). -/
def REG_TEMP : Nat := 0x00

/-- Source: `REG_CONFIG`. -/
def REG_CONFIG : Nat := 0x01

/-- Source: `REG_T_HIGH`. -/
def REG_T_HIGH : Nat := 0x02

/-- Source: `REG_T_LOW`. -/
def REG_T_LOW : Nat := 0x03

/-- Source: `REG_EEPROM_UL` (EEPROM lock-control register). -/
def REG_EEPROM_UL : Nat := 0x04

/-- Source: `REG_EEPROM1` (first EEPROM scratch slot). -/
def REG_EEPROM1 : Nat := 0x05

/-- Source: `REG_EEPROM2` (second EEPROM scratch slot). -/
def REG_EEPROM2 : Nat := 0x06

/-- Source: `REG_TEMP_OFFSET`. -/
def REG_TEMP_OFFSET : Nat := 0x07

/-- Source: `REG_EEPROM3` (third EEPROM scratch slot). -/
def REG_EEPROM3 : Nat := 0x08

/-- Source: `REG_DEVICE_ID`. -/
def REG_DEVICE_ID : Nat := 0x0F

/-- One observable step of the driver: a register read transaction
(with the 7-bit device address it was issued to and its result), a
register write transaction, or a fixed blocking delay (`delay(ms)` in
the source), which touches no bus. -/
inductive Ev where
  | read (addr reg : Nat) (res : Option Nat)
  | write (addr reg val : Nat) (ok : Bool)
  | wait (ms : Nat)
deriving DecidableEq, Repr

/-- `true` exactly for the events that are bus (transport) transactions;
`Ev.wait` is a blocking delay with no bus traffic. -/
def Ev.isBusTxn : Ev → Bool
  | .read _ _ _ => true
  | .write _ _ _ _ => true
  | .wait _ => false

/-- The device address an event was issued to, if it touches the bus. -/
def Ev.evAddr : Ev → Option Nat
  | .read a _ _ => some a
  | .write a _ _ _ => some a
  | .wait _ => none

/-- The transport collaborator (the `TwoWire` bus), as a response
oracle: `readAt addr n reg` is the 16-bit value returned by the `n`-th
transaction of the run when it is a read of register `reg` on device
`addr` (`none` models a transport failure: NACK of the address write or
short read), and `writeAt addr n reg v` tells whether the `n`-th
transaction, a write, is acknowledged. -/
structure Bus where
  readAt : Nat → Nat → Nat → Option Nat
  writeAt : Nat → Nat → Nat → Nat → Bool

/-- The private members of `TMP11x_7Semi`: the stored bus reference
(`TwoWire *i2c`, represented by an opaque-to-the-driver identifier) and
the stored 7-bit device address (`uint8_t address`). -/
structure Facade where
  busId : Nat
  address : Nat
deriving DecidableEq, Repr

/-- `TMP11x_7Semi::readReg`: one register read transaction (register
address write, repeated start, two-byte read, MSB first), modelled as a
single transport transaction.  Returns (status, out-param value,
next transaction index, trace).  On failure (`endTransmission` nonzero
or short `requestFrom`) the out-param `value0` is left untouched; on
success the value is assembled from two bytes, hence is reduced mod
2^16. -/
def readReg (bus : Bus) (dev : Facade) (n : Nat) (reg : Nat) (value0 : Nat) :
    Bool × Nat × Nat × List Ev :=
  match bus.readAt dev.address n reg with
  | none => (false, value0, n + 1, [Ev.read dev.address reg none])
  | some r => (true, r % 65536, n + 1, [Ev.read dev.address reg (some (r % 65536))])

/-- `TMP11x_7Semi::writeReg`: one register write transaction (register
address byte, then `value >> 8`, then `value & 0xFF`).  The `uint16_t`
parameter is modelled by reducing `value` mod 2^16. -/
def writeReg (bus : Bus) (dev : Facade) (n : Nat) (reg : Nat) (value : Nat) :
    Bool × Nat × List Ev :=
  (bus.writeAt dev.address n reg (value % 65536), n + 1,
    [Ev.write dev.address reg (value % 65536) (bus.writeAt dev.address n reg (value % 65536))])

/-- Byte serialization of `writeReg`'s payload: the source sends
`value >> 8` first, then `value & 0xFF` (big-endian, MSB first). -/
def writeRegWire (value : Nat) : List Nat :=
  [(value % 65536) >>> 8, (value % 65536) &&& 0xFF]

/-- Byte deserialization in `readReg`: the source computes
`((uint16_t)i2c->read() << 8) | i2c->read()`, i.e. first byte received
is the high byte.  Bus bytes are 8-bit, modelled by mod 256. -/
def readRegWire : List Nat → Nat
  | [b1, b2] => ((b1 % 256) <<< 8) ||| (b2 % 256)
  | _ => 0

/-- The five configuration-register bit fields of the driver
(source: `setMode`/`setConversionRate`/`setAveraging`/
`setThermAlertMode`/`setAlertPolarity` and their getters). -/
inductive CfgField where
  | mode
  | conv
  | avg
  | thermAlert
  | pol
deriving DecidableEq, Repr

/-- Bit position of each field's least significant bit, as in the
source shifts (`<< 10`, `<< 7`, `<< 5`, `<< 4`, `<< 3`). -/
def fieldShift : CfgField → Nat
  | .mode => 10
  | .conv => 7
  | .avg => 5
  | .thermAlert => 4
  | .pol => 3

/-- Bit width of each field, as in the source masks
(`0x03`, `0x07`, `0x03`, `0x01`, `0x01`). -/
def fieldWidth : CfgField → Nat
  | .mode => 2
  | .conv => 3
  | .avg => 2
  | .thermAlert => 1
  | .pol => 1

/-- The common shape of the source's field setters:
`cfg &= ~(mask << s); cfg |= (v & mask) << s` with `mask = 2^w - 1`.
The C `~` on an `int` followed by assignment to `uint16_t` truncates to
16 bits, made explicit here as XOR with 0xFFFF. -/
def packBits (cfg s w v : Nat) : Nat :=
  (cfg &&& (65535 ^^^ ((2 ^ w - 1) <<< s))) ||| ((v &&& (2 ^ w - 1)) <<< s)

/-- The common shape of the source's field getters:
`(cfg >> s) & mask`. -/
def unpackBits (x s w : Nat) : Nat :=
  (x >>> s) &&& (2 ^ w - 1)

/-- `packField(currentValue, field, value)` of the Register Codec: the
source setter body for the given field. -/
def packField (cfg : Nat) (f : CfgField) (v : Nat) : Nat :=
  packBits cfg (fieldShift f) (fieldWidth f) v

/-- `unpackField(currentValue, field)` of the Register Codec: the
source getter body for the given field. -/
def unpackField (cfg : Nat) (f : CfgField) : Nat :=
  unpackBits cfg (fieldShift f) (fieldWidth f)

/-- C cast `(int16_t)` of a `uint16_t`: two's-complement
reinterpretation. -/
def toInt16 (v : Nat) : Int :=
  if v < 32768 then (v : Int) else (v : Int) - 65536

/-- C implicit conversion of an `int16_t` argument to a `uint16_t`
parameter: reduction mod 2^16. -/
def int16ToU16 (i : Int) : Nat :=
  (i % 65536).toNat

/-- C float-to-int truncation toward zero, on the exact rational
model. -/
def truncQ (q : ℚ) : Int :=
  if 0 ≤ q then ⌊q⌋ else ⌈q⌉

/-- `TMP11x_7Semi::rawToCelsius`: `raw * 0.0078125f`.  Exact in
binary32 for every `int16` input (pure exponent shift of an exactly
representable integer), so the rational model is exact. -/
def rawToCelsius (raw : Int) : ℚ :=
  (raw : ℚ) * (0.0078125 : ℚ)

/-- `TMP11x_7Semi::celsiusToRaw`: `(int16_t)(temp / 0.0078125f)`.
Division by 2^-7 is an exact exponent shift in binary32; the cast
truncates toward zero. -/
def celsiusToRaw (temp : ℚ) : Int :=
  truncQ (temp / (0.0078125 : ℚ))

/-- Celsius-to-Fahrenheit step of `readTemperatureF`:
`(tempC * 1.8f) + 32.0f`.  The factor is modelled as the exact rational
9/5; no claim proved here depends on this function's rounding. -/
def celsiusToFahrenheit (t : ℚ) : ℚ :=
  t * (9 / 5) + 32

/-- `TMP11x_7Semi::getDeviceID`: `return readReg(REG_DEVICE_ID, deviceID);`. -/
def getDeviceID (bus : Bus) (dev : Facade) (n : Nat) (deviceID0 : Nat) :
    Bool × Nat × Nat × List Ev :=
  readReg bus dev n REG_DEVICE_ID deviceID0

/-- `TMP11x_7Semi::begin`: stores the address member, configures the
transport (bus init and clock setup are transport configuration with no
register transaction, hence contribute no trace events), then reads the
device identity once and accepts exactly 0x0117 or 0x1116.  Returns
(status, updated facade, next index, trace). -/
def begin (bus : Bus) (dev : Facade) (i2cAddress : Nat) (n : Nat) :
    Bool × Facade × Nat × List Ev :=
  let dev2 : Facade := { dev with address := i2cAddress }
  match getDeviceID bus dev2 n 0 with
  | (false, _, n2, tr) => (false, dev2, n2, tr)
  | (true, deviceID, n2, tr) =>
    if deviceID = 0x0117 ∨ deviceID = 0x1116 then (true, dev2, n2, tr)
    else (false, dev2, n2, tr)

/-- `TMP11x_7Semi::readRawTemperature`: reads `REG_TEMP`, casts to
`int16_t` on success; the out-param is untouched on failure (the local
`uint16_t raw` is modelled with dummy initial value 0, never used on
the failure path). -/
def readRawTemperature (bus : Bus) (dev : Facade) (n : Nat) (raw0 : Int) :
    Bool × Int × Nat × List Ev :=
  match readReg bus dev n REG_TEMP 0 with
  | (false, _, n2, tr) => (false, raw0, n2, tr)
  | (true, v, n2, tr) => (true, toInt16 v, n2, tr)

/-- `TMP11x_7Semi::readTemperatureC`: raw read then `rawToCelsius`. -/
def readTemperatureC (bus : Bus) (dev : Facade) (n : Nat) (t0 : ℚ) :
    Bool × ℚ × Nat × List Ev :=
  match readRawTemperature bus dev n 0 with
  | (false, _, n2, tr) => (false, t0, n2, tr)
  | (true, raw, n2, tr) => (true, rawToCelsius raw, n2, tr)

/-- `TMP11x_7Semi::readTemperatureF`: Celsius read then
`(tempC * 1.8f) + 32.0f`. -/
def readTemperatureF (bus : Bus) (dev : Facade) (n : Nat) (t0 : ℚ) :
    Bool × ℚ × Nat × List Ev :=
  match readTemperatureC bus dev n 0 with
  | (false, _, n2, tr) => (false, t0, n2, tr)
  | (true, tC, n2, tr) => (true, celsiusToFahrenheit tC, n2, tr)

/-- `TMP11x_7Semi::readConfig`: `return readReg(REG_CONFIG, config);`. -/
def readConfig (bus : Bus) (dev : Facade) (n : Nat) (config0 : Nat) :
    Bool × Nat × Nat × List Ev :=
  readReg bus dev n REG_CONFIG config0

/-- `TMP11x_7Semi::writeConfig`: `return writeReg(REG_CONFIG, config);`. -/
def writeConfig (bus : Bus) (dev : Facade) (n : Nat) (config : Nat) :
    Bool × Nat × List Ev :=
  writeReg bus dev n REG_CONFIG config

/-- `TMP11x_7Semi::reset`: `return writeConfig(0x8000);` (single blind
write of the reset sentinel). -/
def reset (bus : Bus) (dev : Facade) (n : Nat) : Bool × Nat × List Ev :=
  writeConfig bus dev n 0x8000

/-- `TMP11x_7Semi::setConversionRate`: read config, clear and set
CONFIG[9:7], write back. -/
def setConversionRate (bus : Bus) (dev : Facade) (n : Nat) (conversionRate : Nat) :
    Bool × Nat × List Ev :=
  match readConfig bus dev n 0 with
  | (false, _, n2, tr) => (false, n2, tr)
  | (true, cfg, n2, tr) =>
    let cfg2 := (cfg &&& (65535 ^^^ (0x07 <<< 7))) ||| ((conversionRate &&& 0x07) <<< 7)
    let r := writeConfig bus dev n2 cfg2
    (r.1, r.2.1, tr ++ r.2.2)

/-- `TMP11x_7Semi::getConversionRate`: read config, `(cfg >> 7) & 0x07`. -/
def getConversionRate (bus : Bus) (dev : Facade) (n : Nat) (conversionRate0 : Nat) :
    Bool × Nat × Nat × List Ev :=
  match readConfig bus dev n 0 with
  | (false, _, n2, tr) => (false, conversionRate0, n2, tr)
  | (true, cfg, n2, tr) => (true, (cfg >>> 7) &&& 0x07, n2, tr)

/-- `TMP11x_7Semi::setAveraging`: read config, clear and set
CONFIG[6:5], write back. -/
def setAveraging (bus : Bus) (dev : Facade) (n : Nat) (avg : Nat) :
    Bool × Nat × List Ev :=
  match readConfig bus dev n 0 with
  | (false, _, n2, tr) => (false, n2, tr)
  | (true, cfg, n2, tr) =>
    let cfg2 := (cfg &&& (65535 ^^^ (0x03 <<< 5))) ||| ((avg &&& 0x03) <<< 5)
    let r := writeConfig bus dev n2 cfg2
    (r.1, r.2.1, tr ++ r.2.2)

/-- `TMP11x_7Semi::getAveraging`: read config, `(cfg >> 5) & 0x03`. -/
def getAveraging (bus : Bus) (dev : Facade) (n : Nat) (avg0 : Nat) :
    Bool × Nat × Nat × List Ev :=
  match readConfig bus dev n 0 with
  | (false, _, n2, tr) => (false, avg0, n2, tr)
  | (true, cfg, n2, tr) => (true, (cfg >>> 5) &&& 0x03, n2, tr)

/-- `TMP11x_7Semi::setMode`: read config, clear and set CONFIG[11:10],
write back. -/
def setMode (bus : Bus) (dev : Facade) (n : Nat) (mode : Nat) :
    Bool × Nat × List Ev :=
  match readConfig bus dev n 0 with
  | (false, _, n2, tr) => (false, n2, tr)
  | (true, cfg, n2, tr) =>
    let cfg2 := (cfg &&& (65535 ^^^ (0x03 <<< 10))) ||| ((mode &&& 0x03) <<< 10)
    let r := writeConfig bus dev n2 cfg2
    (r.1, r.2.1, tr ++ r.2.2)

/-- `TMP11x_7Semi::getMode`: read config, `(cfg >> 10) & 0x03`. -/
def getMode (bus : Bus) (dev : Facade) (n : Nat) (mode0 : Nat) :
    Bool × Nat × Nat × List Ev :=
  match readConfig bus dev n 0 with
  | (false, _, n2, tr) => (false, mode0, n2, tr)
  | (true, cfg, n2, tr) => (true, (cfg >>> 10) &&& 0x03, n2, tr)

/-- `TMP11x_7Semi::setHighLimit`:
`writeReg(REG_T_HIGH, celsiusToRaw(tempC))`. -/
def setHighLimit (bus : Bus) (dev : Facade) (n : Nat) (tempC : ℚ) :
    Bool × Nat × List Ev :=
  writeReg bus dev n REG_T_HIGH (int16ToU16 (celsiusToRaw tempC))

/-- `TMP11x_7Semi::setLowLimit`:
`writeReg(REG_T_LOW, celsiusToRaw(tempC))`. -/
def setLowLimit (bus : Bus) (dev : Facade) (n : Nat) (tempC : ℚ) :
    Bool × Nat × List Ev :=
  writeReg bus dev n REG_T_LOW (int16ToU16 (celsiusToRaw tempC))

/-- `TMP11x_7Semi::getHighLimit`: read `REG_T_HIGH`, convert via
`rawToCelsius((int16_t)raw)` on success. -/
def getHighLimit (bus : Bus) (dev : Facade) (n : Nat) (tempC0 : ℚ) :
    Bool × ℚ × Nat × List Ev :=
  match readReg bus dev n REG_T_HIGH 0 with
  | (false, _, n2, tr) => (false, tempC0, n2, tr)
  | (true, raw, n2, tr) => (true, rawToCelsius (toInt16 raw), n2, tr)

/-- `TMP11x_7Semi::getLowLimit`: read `REG_T_LOW`, convert on success. -/
def getLowLimit (bus : Bus) (dev : Facade) (n : Nat) (tempC0 : ℚ) :
    Bool × ℚ × Nat × List Ev :=
  match readReg bus dev n REG_T_LOW 0 with
  | (false, _, n2, tr) => (false, tempC0, n2, tr)
  | (true, raw, n2, tr) => (true, rawToCelsius (toInt16 raw), n2, tr)

/-- `TMP11x_7Semi::setOffset`:
`writeReg(REG_TEMP_OFFSET, celsiusToRaw(offsetC))`. -/
def setOffset (bus : Bus) (dev : Facade) (n : Nat) (offsetC : ℚ) :
    Bool × Nat × List Ev :=
  writeReg bus dev n REG_TEMP_OFFSET (int16ToU16 (celsiusToRaw offsetC))

/-- `TMP11x_7Semi::getOffset`: read `REG_TEMP_OFFSET`, convert on
success. -/
def getOffset (bus : Bus) (dev : Facade) (n : Nat) (offsetC0 : ℚ) :
    Bool × ℚ × Nat × List Ev :=
  match readReg bus dev n REG_TEMP_OFFSET 0 with
  | (false, _, n2, tr) => (false, offsetC0, n2, tr)
  | (true, raw, n2, tr) => (true, rawToCelsius (toInt16 raw), n2, tr)

/-- `TMP11x_7Semi::setAlertPolarity`: read config; `if (active_high)`
set bit 3 else clear bit 3 (clearing truncated to 16 bits as in the
source's `uint16_t` assignment); write back. -/
def setAlertPolarity (bus : Bus) (dev : Facade) (n : Nat) (active_high : Nat) :
    Bool × Nat × List Ev :=
  match readConfig bus dev n 0 with
  | (false, _, n2, tr) => (false, n2, tr)
  | (true, config, n2, tr) =>
    let config2 := if active_high ≠ 0 then config ||| (1 <<< 3)
      else config &&& (65535 ^^^ (1 <<< 3))
    let r := writeConfig bus dev n2 config2
    (r.1, r.2.1, tr ++ r.2.2)

/-- `TMP11x_7Semi::getAlertPolarity`: read config, `(cfg >> 3) & 0x01`. -/
def getAlertPolarity (bus : Bus) (dev : Facade) (n : Nat) (active_high0 : Nat) :
    Bool × Nat × Nat × List Ev :=
  match readConfig bus dev n 0 with
  | (false, _, n2, tr) => (false, active_high0, n2, tr)
  | (true, cfg, n2, tr) => (true, (cfg >>> 3) &&& 0x01, n2, tr)

/-- `TMP11x_7Semi::setThermAlertMode`: read config, clear and set
CONFIG[4], write back. -/
def setThermAlertMode (bus : Bus) (dev : Facade) (n : Nat) (mode : Nat) :
    Bool × Nat × List Ev :=
  match readConfig bus dev n 0 with
  | (false, _, n2, tr) => (false, n2, tr)
  | (true, cfg, n2, tr) =>
    let cfg2 := (cfg &&& (65535 ^^^ (1 <<< 4))) ||| ((mode &&& 0x01) <<< 4)
    let r := writeConfig bus dev n2 cfg2
    (r.1, r.2.1, tr ++ r.2.2)

/-- `TMP11x_7Semi::getThermAlertMode`: read config, `(cfg >> 4) & 0x01`. -/
def getThermAlertMode (bus : Bus) (dev : Facade) (n : Nat) (mode0 : Nat) :
    Bool × Nat × Nat × List Ev :=
  match readConfig bus dev n 0 with
  | (false, _, n2, tr) => (false, mode0, n2, tr)
  | (true, cfg, n2, tr) => (true, (cfg >>> 4) &&& 0x01, n2, tr)

/-- `TMP11x_7Semi::unlockEEPROM`: write the unlock sentinel 0x8000
(bit 15 set) to `REG_EEPROM_UL`; on success `delay(2)` then return
true; a write failure returns false immediately. -/
def unlockEEPROM (bus : Bus) (dev : Facade) (n : Nat) : Bool × Nat × List Ev :=
  match writeReg bus dev n REG_EEPROM_UL 0x8000 with
  | (false, n2, tr) => (false, n2, tr)
  | (true, n2, tr) => (true, n2, tr ++ [Ev.wait 2])

/-- `TMP11x_7Semi::lockEEPROM`: write the lock sentinel 0x0000 to
`REG_EEPROM_UL`; on success `delay(2)` then return true. -/
def lockEEPROM (bus : Bus) (dev : Facade) (n : Nat) : Bool × Nat × List Ev :=
  match writeReg bus dev n REG_EEPROM_UL 0x0000 with
  | (false, n2, tr) => (false, n2, tr)
  | (true, n2, tr) => (true, n2, tr ++ [Ev.wait 2])

/-- `TMP11x_7Semi::readEEPROM`: reject any register that is not one of
the three scratch slots before any bus transaction; otherwise a plain
single register read, no unlock. -/
def readEEPROM (bus : Bus) (dev : Facade) (n : Nat) (reg : Nat) (value0 : Nat) :
    Bool × Nat × Nat × List Ev :=
  if reg ≠ REG_EEPROM1 ∧ reg ≠ REG_EEPROM2 ∧ reg ≠ REG_EEPROM3 then
    (false, value0, n, [])
  else
    readReg bus dev n reg value0

/-- `TMP11x_7Semi::writeEEPROM`: reject invalid slots before any bus
transaction; otherwise unlock (write 0x8000 then `delay(2)`), write the
value to the slot, `delay(10)`, then lock — discarding the lock's
result (`lockEEPROM();` with no check) — and return true.  A failure of
the unlock-write or of the data-write returns false immediately. -/
def writeEEPROM (bus : Bus) (dev : Facade) (n : Nat) (reg : Nat) (value : Nat) :
    Bool × Nat × List Ev :=
  if reg ≠ REG_EEPROM1 ∧ reg ≠ REG_EEPROM2 ∧ reg ≠ REG_EEPROM3 then
    (false, n, [])
  else
    match unlockEEPROM bus dev n with
    | (false, n2, tr) => (false, n2, tr)
    | (true, n2, tr) =>
      match writeReg bus dev n2 reg value with
      | (false, n3, tr2) => (false, n3, tr ++ tr2)
      | (true, n3, tr2) =>
        let r := lockEEPROM bus dev n3
        (true, r.2.1, tr ++ tr2 ++ [Ev.wait 10] ++ r.2.2)

/-! ### Bit-codec lemmas -/

/-- Unchanged-bit form of the field-clearing mask: a `testBit` view of
`65535 ^^^ (m <<< s)`. -/
lemma testBit_65535 (i : Nat) : Nat.testBit 65535 i = decide (i < 16) := by
  rw [show (65535 : Nat) = 2 ^ 16 - 1 by norm_num, Nat.testBit_two_pow_sub_one]

/-- Packing a value into a field window and unpacking that window gives
the value back, for values within the field's width. -/
lemma unpackBits_packBits (cfg v s w : Nat) (hsw : s + w ≤ 16) (hv : v < 2 ^ w) :
    unpackBits (packBits cfg s w v) s w = v := by
  apply Nat.eq_of_testBit_eq
  intro j
  rw [unpackBits, packBits]
  simp only [Nat.testBit_and, Nat.testBit_or, Nat.testBit_xor, Nat.testBit_shiftLeft,
    Nat.testBit_shiftRight, Nat.testBit_two_pow_sub_one, testBit_65535]
  by_cases hj : j < w
  · have h3 : s + j < 16 := by omega
    have h2 : s + j - s = j := by omega
    simp [h2, h3, hj, Nat.le_add_right]
  · have hvj : v.testBit j = false :=
      Nat.testBit_lt_two_pow
        (lt_of_lt_of_le hv (Nat.pow_le_pow_right (by norm_num) (Nat.le_of_not_lt hj)))
    simp [hj, hvj]

/-- Packing a value into a field window leaves every bit outside the
window unchanged (16-bit configurations). -/
lemma packBits_testBit_outside (cfg v s w : Nat) (hsw : s + w ≤ 16) (hcfg : cfg < 65536)
    (i : Nat) (hi : i < s ∨ s + w ≤ i) :
    (packBits cfg s w v).testBit i = cfg.testBit i := by
  rw [packBits]
  simp only [Nat.testBit_and, Nat.testBit_or, Nat.testBit_xor, Nat.testBit_shiftLeft,
    Nat.testBit_two_pow_sub_one, testBit_65535]
  rcases hi with hi | hi
  · have h1 : ¬ (i ≥ s) := by omega
    have h2 : i < 16 := by omega
    simp [h1, h2]
  · have h1 : i ≥ s := by omega
    have h2 : ¬ (i - s < w) := by omega
    by_cases h3 : i < 16
    · simp [h1, h2, h3]
    · have hc : cfg.testBit i = false :=
        Nat.testBit_lt_two_pow (lt_of_lt_of_le hcfg (by
          calc (65536 : Nat) = 2 ^ 16 := by norm_num
            _ ≤ 2 ^ i := Nat.pow_le_pow_right (by norm_num) (by omega)))
      simp [h1, h2, h3, hc]

/-- Packed configurations stay within 16 bits. -/
lemma packBits_lt (cfg v s w : Nat) (hsw : s + w ≤ 16) (hcfg : cfg < 65536) :
    packBits cfg s w v < 65536 := by
  have h1 : cfg &&& (65535 ^^^ ((2 ^ w - 1) <<< s)) < 65536 :=
    lt_of_le_of_lt Nat.and_le_left hcfg
  have h2 : (v &&& (2 ^ w - 1)) <<< s < 65536 := by
    rw [Nat.shiftLeft_eq]
    calc (v &&& (2 ^ w - 1)) * 2 ^ s ≤ (2 ^ w - 1) * 2 ^ s :=
          Nat.mul_le_mul_right _ Nat.and_le_right
      _ < 2 ^ w * 2 ^ s := by
          have hs : (0 : Nat) < 2 ^ s := Nat.pos_pow_of_pos s (by norm_num)
          have hw : (0 : Nat) < 2 ^ w := Nat.pos_pow_of_pos w (by norm_num)
          exact (Nat.mul_lt_mul_right hs).mpr (by omega)
      _ = 2 ^ (w + s) := (Nat.pow_add 2 w s).symm
      _ ≤ 2 ^ 16 := Nat.pow_le_pow_right (by norm_num) (by omega)
      _ = 65536 := by norm_num
  calc packBits cfg s w v < 2 ^ 16 := by
        rw [packBits]
        exact Nat.or_lt_two_pow (by norm_num at h1 ⊢; exact h1) (by norm_num at h2 ⊢; exact h2)
    _ = 65536 := by norm_num

/-- Every configuration field fits inside the 16-bit register. -/
lemma fieldSpan_le (f : CfgField) : fieldShift f + fieldWidth f ≤ 16 := by
  cases f <;> simp [fieldShift, fieldWidth]

/-- C1: for every 16-bit configuration, every configuration field and
every value within that field's bit width, unpacking the field from the
result of packing it yields the value back, and every bit outside the
field's span in the result equals the corresponding bit of the original
configuration. -/
theorem claim_C1 (cfg : Nat) (hcfg : cfg < 65536) (f : CfgField) (v : Nat)
    (hv : v < 2 ^ fieldWidth f) :
    unpackField (packField cfg f v) f = v ∧
    ∀ i, i < fieldShift f ∨ fieldShift f + fieldWidth f ≤ i →
      (packField cfg f v).testBit i = cfg.testBit i :=
  ⟨unpackBits_packBits cfg v _ _ (fieldSpan_le f) hv,
    fun i hi => packBits_testBit_outside cfg v _ _ (fieldSpan_le f) hcfg i hi⟩

/-- Concrete instance of C1: conversion-rate field, value 5, packed
into configuration 0xABCD; bit 3 (outside the field) is preserved. -/
theorem claim_C1_witness :
    unpackField (packField 0xABCD CfgField.conv 5) CfgField.conv = 5 ∧
    (packField 0xABCD CfgField.conv 5).testBit 3 = Nat.testBit 0xABCD 3 :=
  ⟨(claim_C1 0xABCD (by norm_num) CfgField.conv 5 (by decide)).1,
    (claim_C1 0xABCD (by norm_num) CfgField.conv 5 (by decide)).2 3 (Or.inl (by decide))⟩

/-! ### Temperature codec (claim C6) -/

/-- C6: for every int16 code, `celsiusToRaw (rawToCelsius code)` is
within 1 LSB of the code — in fact exactly equal, every int16 code
being representable without rounding loss (multiplying and dividing by
the LSB constant 0.0078125 = 2^-7 are exact); the conversions multiply
respectively divide by 0.0078125 and the float-to-int conversion
truncates toward zero. -/
theorem claim_C6 (code : Int) (h1 : -32768 ≤ code) (h2 : code ≤ 32767) :
    celsiusToRaw (rawToCelsius code) = code ∧
    (celsiusToRaw (rawToCelsius code) - code).natAbs ≤ 1 ∧
    celsiusToRaw (3 / 256) = 1 ∧ celsiusToRaw (-(1 / 100)) = -1 := by
  have hc : (0.0078125 : ℚ) ≠ 0 := by norm_num
  have key : celsiusToRaw (rawToCelsius code) = code := by
    unfold celsiusToRaw rawToCelsius
    rw [mul_div_cancel_right₀ _ hc]
    unfold truncQ
    by_cases h : (0 : ℚ) ≤ (code : ℚ)
    · simp [h, Int.floor_intCast]
    · simp [h, Int.ceil_intCast]
  refine ⟨key, by rw [key]; simp, ?_, ?_⟩
  · show truncQ (3 / 256 / (0.0078125 : ℚ)) = 1
    norm_num [truncQ]
  · show truncQ (-(1 / 100) / (0.0078125 : ℚ)) = -1
    norm_num [truncQ, Int.ceil_eq_iff]

/-- Concrete instance of C6 at code 12345. -/
theorem claim_C6_witness : celsiusToRaw (rawToCelsius 12345) = 12345 :=
  (claim_C6 12345 (by norm_num) (by norm_num)).1

/-! ### Wire serialization (claim C9) -/

/-- Bit view of the byte mask 0xFF. -/
lemma testBit_255 (i : Nat) : Nat.testBit 255 i = decide (i < 8) := by
  rw [show (255 : Nat) = 2 ^ 8 - 1 by norm_num, Nat.testBit_two_pow_sub_one]

/-- Masking with 0xFF is reduction mod 256. -/
lemma and_255_eq_mod (x : Nat) : x &&& 255 = x % 256 := by
  apply Nat.eq_of_testBit_eq
  intro i
  rw [show (256 : Nat) = 2 ^ 8 by norm_num]
  simp only [Nat.testBit_and, Nat.testBit_mod_two_pow, testBit_255]
  exact Bool.and_comm _ _

/-- Reassembling the high and low byte of a 16-bit value gives the
value back. -/
lemma high_low_or (v : Nat) (hv : v < 65536) : ((v >>> 8) <<< 8) ||| (v &&& 255) = v := by
  apply Nat.eq_of_testBit_eq
  intro i
  simp only [Nat.testBit_or, Nat.testBit_shiftLeft, Nat.testBit_shiftRight, Nat.testBit_and,
    testBit_255]
  by_cases hi : i < 8
  · simp [hi, Nat.not_le.2 hi]
  · have h8 : 8 + (i - 8) = i := by omega
    simp [hi, Nat.le_of_not_lt hi, h8]

/-- C9: register values are serialized big-endian — `writeReg` sends
the high byte `value >> 8` before the low byte `value & 0xFF`, and
`readReg` reconstructs `(first << 8) | second` — so decoding the
serialized bytes of any 16-bit value yields exactly that value. -/
theorem claim_C9 (v : Nat) (hv : v < 65536) :
    writeRegWire v = [v / 256, v % 256] ∧ readRegWire (writeRegWire v) = v := by
  have hm : v % 65536 = v := Nat.mod_eq_of_lt hv
  have hhi : v >>> 8 < 256 := by
    rw [Nat.shiftRight_eq_div_pow]
    omega
  have hlo : v &&& 255 < 256 := lt_of_le_of_lt Nat.and_le_right (by norm_num)
  constructor
  · rw [writeRegWire, hm, and_255_eq_mod, Nat.shiftRight_eq_div_pow]
  · rw [writeRegWire, hm, readRegWire, Nat.mod_eq_of_lt hhi, Nat.mod_eq_of_lt hlo]
    exact high_low_or v hv

/-- Concrete instance of C9 at value 0xABCD. -/
theorem claim_C9_witness :
    writeRegWire 0xABCD = [0xAB, 0xCD] ∧ readRegWire (writeRegWire 0xABCD) = 0xABCD :=
  claim_C9 0xABCD (by norm_num)

/-! ### Initialization (claim C2) -/

/-- C2: `begin` returns success iff the identity read succeeds and the
16-bit identity is 0x0117 or 0x1116; a transport failure or any third
value gives failure; and `begin` issues exactly one identity read (its
whole trace is that single read — no retry). -/
theorem claim_C2 (bus : Bus) (dev : Facade) (a n : Nat) :
    ((begin bus dev a n).1 = true ↔
      ∃ v, bus.readAt a n REG_DEVICE_ID = some v ∧
        (v % 65536 = 0x0117 ∨ v % 65536 = 0x1116)) ∧
    ∃ r, (begin bus dev a n).2.2.2 = [Ev.read a REG_DEVICE_ID r] := by
  cases h : bus.readAt a n REG_DEVICE_ID with
  | none =>
    constructor
    · simp [begin, getDeviceID, readReg, h]
    · exact ⟨none, by simp [begin, getDeviceID, readReg, h]⟩
  | some r =>
    have hb : begin bus dev a n =
        if r % 65536 = 0x0117 ∨ r % 65536 = 0x1116 then
          (true, ({ dev with address := a } : Facade), n + 1,
            [Ev.read a REG_DEVICE_ID (some (r % 65536))])
        else
          (false, ({ dev with address := a } : Facade), n + 1,
            [Ev.read a REG_DEVICE_ID (some (r % 65536))]) := by
      simp only [begin, getDeviceID, readReg, h]
    by_cases hid : r % 65536 = 0x0117 ∨ r % 65536 = 0x1116
    · rw [hb, if_pos hid]
      refine ⟨⟨fun _ => ⟨r, rfl, hid⟩, fun _ => rfl⟩, ⟨some (r % 65536), rfl⟩⟩
    · rw [hb, if_neg hid]
      refine ⟨⟨fun hF => absurd hF (by simp), fun hE => ?_⟩, ⟨some (r % 65536), rfl⟩⟩
      obtain ⟨v, hv1, hv2⟩ := hE
      have he : r = v := Option.some.inj hv1
      subst he
      exact absurd hv2 hid

/-- Concrete instance of C2: a bus answering the identity read with
0x1116 makes `begin` succeed. -/
theorem claim_C2_witness :
    (begin ⟨fun _ _ _ => some 0x1116, fun _ _ _ _ => true⟩ ⟨0, 0x48⟩ 0x49 0).1 = true :=
  ((claim_C2 ⟨fun _ _ _ => some 0x1116, fun _ _ _ _ => true⟩ ⟨0, 0x48⟩ 0x49 0).1).mpr
    ⟨0x1116, rfl, Or.inr rfl⟩

/-! ### EEPROM slot validation (claim C5) -/

/-- C5: for every register that is not one of the three scratch slots,
both `writeEEPROM` and `readEEPROM` fail with an empty trace (zero
transport transactions, no state touched, not even the transaction
counter); and on a valid slot `readEEPROM` is exactly a plain single
register read, with no unlock. -/
theorem claim_C5 (bus : Bus) (dev : Facade) (n reg value v0 : Nat)
    (h1 : reg ≠ REG_EEPROM1) (h2 : reg ≠ REG_EEPROM2) (h3 : reg ≠ REG_EEPROM3) :
    writeEEPROM bus dev n reg value = (false, n, []) ∧
    readEEPROM bus dev n reg v0 = (false, v0, n, []) ∧
    ∀ slot v1, slot = REG_EEPROM1 ∨ slot = REG_EEPROM2 ∨ slot = REG_EEPROM3 →
      readEEPROM bus dev n slot v1 = readReg bus dev n slot v1 ∧
      ∃ r, (readEEPROM bus dev n slot v1).2.2.2 = [Ev.read dev.address slot r] := by
  refine ⟨?_, ?_, ?_⟩
  · rw [writeEEPROM, if_pos ⟨h1, h2, h3⟩]
  · rw [readEEPROM, if_pos ⟨h1, h2, h3⟩]
  · intro slot v1 hslot
    have hvalid : ¬ (slot ≠ REG_EEPROM1 ∧ slot ≠ REG_EEPROM2 ∧ slot ≠ REG_EEPROM3) := by
      rcases hslot with h | h | h <;> simp [h]
    have hre : readEEPROM bus dev n slot v1 = readReg bus dev n slot v1 := by
      rw [readEEPROM, if_neg hvalid]
    refine ⟨hre, ?_⟩
    rw [hre]
    cases hb : bus.readAt dev.address n slot with
    | none => exact ⟨none, by simp [readReg, hb]⟩
    | some x => exact ⟨some (x % 65536), by simp [readReg, hb]⟩

/-- Concrete instance of C5: register 0x07 (the offset register) is
rejected by both EEPROM operations with an empty trace, and slot 0x05
reads as a plain register read. -/
theorem claim_C5_witness :
    writeEEPROM ⟨fun _ _ _ => some 0, fun _ _ _ _ => true⟩ ⟨0, 0x48⟩ 0 REG_TEMP_OFFSET 1 =
      (false, 0, []) ∧
    readEEPROM ⟨fun _ _ _ => some 0, fun _ _ _ _ => true⟩ ⟨0, 0x48⟩ 0 REG_TEMP_OFFSET 9 =
      (false, 9, 0, []) :=
  ⟨(claim_C5 ⟨fun _ _ _ => some 0, fun _ _ _ _ => true⟩ ⟨0, 0x48⟩ 0 REG_TEMP_OFFSET 1 9
      (by decide) (by decide) (by decide)).1,
   (claim_C5 ⟨fun _ _ _ => some 0, fun _ _ _ _ => true⟩ ⟨0, 0x48⟩ 0 REG_TEMP_OFFSET 1 9
      (by decide) (by decide) (by decide)).2.1⟩

/-! ### Configuration setters (claim C7) -/

/-- Evaluation of `readConfig` when the bus answers the read. -/
lemma readConfig_some (bus : Bus) (dev : Facade) (n cfg0 v0 : Nat)
    (h : bus.readAt dev.address n REG_CONFIG = some cfg0) :
    readConfig bus dev n v0 =
      (true, cfg0 % 65536, n + 1, [Ev.read dev.address REG_CONFIG (some (cfg0 % 65536))]) := by
  simp [readConfig, readReg, h]

/-- Evaluation of `writeConfig` on an in-range value. -/
lemma writeConfig_eq (bus : Bus) (dev : Facade) (n c : Nat) (hlt : c < 65536) :
    writeConfig bus dev n c =
      (bus.writeAt dev.address n REG_CONFIG c, n + 1,
        [Ev.write dev.address REG_CONFIG c (bus.writeAt dev.address n REG_CONFIG c)]) := by
  simp [writeConfig, writeReg, Nat.mod_eq_of_lt hlt]

/-- An or of two 16-bit values is 16-bit. -/
lemma or16_lt (a b : Nat) (ha : a < 65536) (hb : b < 65536) : a ||| b < 65536 := by
  have h16 : (65536 : Nat) = 2 ^ 16 := by norm_num
  rw [h16] at ha hb ⊢
  exact Nat.or_lt_two_pow ha hb

/-- Setting bit 3 leaves all other bits unchanged. -/
lemma or_bit3_outside (cfg i : Nat) (hi : i ≠ 3) :
    (cfg ||| (1 <<< 3)).testBit i = cfg.testBit i := by
  rw [Nat.one_shiftLeft]
  simp only [Nat.testBit_or, Nat.testBit_two_pow]
  simp [show ¬ (3 = i) by omega]

/-- Clearing bit 3 (with the 16-bit truncation of the source's
`config &= ~(1 << 3)`) leaves all other bits of a 16-bit configuration
unchanged. -/
lemma and_not_bit3_outside (cfg i : Nat) (hcfg : cfg < 65536) (hi : i ≠ 3) :
    (cfg &&& (65535 ^^^ (1 <<< 3))).testBit i = cfg.testBit i := by
  have hp : cfg &&& (65535 ^^^ (1 <<< 3)) = packBits cfg 3 1 0 := by
    simp [packBits]
  rw [hp]
  exact packBits_testBit_outside cfg 0 3 1 (by norm_num) hcfg i (by omega)

/-- C7: each of the five field setters performs exactly one
configuration-register read transaction followed by exactly one
configuration-register write transaction (its trace is exactly those
two events), and the 16-bit value written differs from the value read
only within the setter's targeted bit span. -/
theorem claim_C7 (bus : Bus) (dev : Facade) (n v cfg0 cfg : Nat)
    (h : bus.readAt dev.address n REG_CONFIG = some cfg0)
    (hc : cfg = cfg0 % 65536) :
    ((setMode bus dev n v).2.2 =
        [Ev.read dev.address REG_CONFIG (some cfg),
         Ev.write dev.address REG_CONFIG (packBits cfg 10 2 v)
           (bus.writeAt dev.address (n + 1) REG_CONFIG (packBits cfg 10 2 v))] ∧
      ∀ i, i < 10 ∨ 12 ≤ i → (packBits cfg 10 2 v).testBit i = cfg.testBit i) ∧
    ((setConversionRate bus dev n v).2.2 =
        [Ev.read dev.address REG_CONFIG (some cfg),
         Ev.write dev.address REG_CONFIG (packBits cfg 7 3 v)
           (bus.writeAt dev.address (n + 1) REG_CONFIG (packBits cfg 7 3 v))] ∧
      ∀ i, i < 7 ∨ 10 ≤ i → (packBits cfg 7 3 v).testBit i = cfg.testBit i) ∧
    ((setAveraging bus dev n v).2.2 =
        [Ev.read dev.address REG_CONFIG (some cfg),
         Ev.write dev.address REG_CONFIG (packBits cfg 5 2 v)
           (bus.writeAt dev.address (n + 1) REG_CONFIG (packBits cfg 5 2 v))] ∧
      ∀ i, i < 5 ∨ 7 ≤ i → (packBits cfg 5 2 v).testBit i = cfg.testBit i) ∧
    ((setThermAlertMode bus dev n v).2.2 =
        [Ev.read dev.address REG_CONFIG (some cfg),
         Ev.write dev.address REG_CONFIG (packBits cfg 4 1 v)
           (bus.writeAt dev.address (n + 1) REG_CONFIG (packBits cfg 4 1 v))] ∧
      ∀ i, i < 4 ∨ 5 ≤ i → (packBits cfg 4 1 v).testBit i = cfg.testBit i) ∧
    ((setAlertPolarity bus dev n v).2.2 =
        [Ev.read dev.address REG_CONFIG (some cfg),
         Ev.write dev.address REG_CONFIG
           (if v ≠ 0 then cfg ||| (1 <<< 3) else cfg &&& (65535 ^^^ (1 <<< 3)))
           (bus.writeAt dev.address (n + 1) REG_CONFIG
             (if v ≠ 0 then cfg ||| (1 <<< 3) else cfg &&& (65535 ^^^ (1 <<< 3))))] ∧
      ∀ i, i ≠ 3 →
        (if v ≠ 0 then cfg ||| (1 <<< 3) else cfg &&& (65535 ^^^ (1 <<< 3))).testBit i =
          cfg.testBit i) := by
  have hcfglt : cfg < 65536 := by rw [hc]; exact Nat.mod_lt _ (by norm_num)
  have hrc := readConfig_some bus dev n cfg0 0 h
  rw [← hc] at hrc
  have hbM : ∀ u, (u &&& (65535 ^^^ (0x03 <<< 10))) ||| ((v &&& 0x03) <<< 10) =
      packBits u 10 2 v := by intro u; norm_num [packBits]
  have hbC : ∀ u, (u &&& (65535 ^^^ (0x07 <<< 7))) ||| ((v &&& 0x07) <<< 7) =
      packBits u 7 3 v := by intro u; norm_num [packBits]
  have hbA : ∀ u, (u &&& (65535 ^^^ (0x03 <<< 5))) ||| ((v &&& 0x03) <<< 5) =
      packBits u 5 2 v := by intro u; norm_num [packBits]
  have hbT : ∀ u, (u &&& (65535 ^^^ (1 <<< 4))) ||| ((v &&& 0x01) <<< 4) =
      packBits u 4 1 v := by intro u; norm_num [packBits]
  have hltM : packBits cfg 10 2 v < 65536 := packBits_lt cfg v 10 2 (by norm_num) hcfglt
  have hltC : packBits cfg 7 3 v < 65536 := packBits_lt cfg v 7 3 (by norm_num) hcfglt
  have hltA : packBits cfg 5 2 v < 65536 := packBits_lt cfg v 5 2 (by norm_num) hcfglt
  have hltT : packBits cfg 4 1 v < 65536 := packBits_lt cfg v 4 1 (by norm_num) hcfglt
  refine ⟨⟨?_, ?_⟩, ⟨?_, ?_⟩, ⟨?_, ?_⟩, ⟨?_, ?_⟩, ⟨?_, ?_⟩⟩
  · rw [setMode, hrc]
    simp only [hbM]
    rw [writeConfig_eq bus dev (n + 1) _ hltM]
    rfl
  · intro i hi
    exact packBits_testBit_outside cfg v 10 2 (by norm_num) hcfglt i (by omega)
  · rw [setConversionRate, hrc]
    simp only [hbC]
    rw [writeConfig_eq bus dev (n + 1) _ hltC]
    rfl
  · intro i hi
    exact packBits_testBit_outside cfg v 7 3 (by norm_num) hcfglt i (by omega)
  · rw [setAveraging, hrc]
    simp only [hbA]
    rw [writeConfig_eq bus dev (n + 1) _ hltA]
    rfl
  · intro i hi
    exact packBits_testBit_outside cfg v 5 2 (by norm_num) hcfglt i (by omega)
  · rw [setThermAlertMode, hrc]
    simp only [hbT]
    rw [writeConfig_eq bus dev (n + 1) _ hltT]
    rfl
  · intro i hi
    exact packBits_testBit_outside cfg v 4 1 (by norm_num) hcfglt i (by omega)
  · simp only [setAlertPolarity, hrc]
    have hlt : (if v ≠ 0 then cfg ||| (1 <<< 3) else cfg &&& (65535 ^^^ (1 <<< 3))) < 65536 := by
      by_cases hv0 : v ≠ 0
      · rw [if_pos hv0]
        exact or16_lt cfg (1 <<< 3) hcfglt (by decide)
      · rw [if_neg hv0]
        exact lt_of_le_of_lt Nat.and_le_left hcfglt
    rw [writeConfig_eq bus dev (n + 1) _ hlt]
    rfl
  · intro i hi
    by_cases hv0 : v ≠ 0
    · rw [if_pos hv0]
      exact or_bit3_outside cfg i hi
    · rw [if_neg hv0]
      exact and_not_bit3_outside cfg i hcfglt hi

/-- Concrete instance of C7: `setAveraging` with value 2 on a bus whose
configuration reads back 0xFFFF keeps bit 0 and writes the expected
packed value as its single write transaction. -/
theorem claim_C7_witness :
    (setAveraging ⟨fun _ _ _ => some 0xFFFF, fun _ _ _ _ => true⟩ ⟨0, 0x48⟩ 0 2).2.2 =
      [Ev.read 0x48 REG_CONFIG (some 0xFFFF),
       Ev.write 0x48 REG_CONFIG (packBits 0xFFFF 5 2 2) true] ∧
    (packBits 0xFFFF 5 2 2).testBit 0 = Nat.testBit 0xFFFF 0 := by
  have h := claim_C7 ⟨fun _ _ _ => some 0xFFFF, fun _ _ _ _ => true⟩ ⟨0, 0x48⟩ 0 2 0xFFFF
    0xFFFF rfl (by norm_num)
  exact ⟨h.2.2.1.1, h.2.2.1.2 0 (Or.inl (by norm_num))⟩

/-! ### EEPROM write sequencing (claims C3 and C4) -/

/-- C3 counterexample: on an all-acknowledging bus, `writeEEPROM` to
valid slot 0x05 performs three transport (bus) transactions, not the
four the claim states — the settle-wait it counts as a transaction is a
blocking delay with no bus traffic. -/
theorem claim_C3_counterexample :
    ¬ ((writeEEPROM ⟨fun _ _ _ => some 0, fun _ _ _ _ => true⟩ ⟨0, 0x48⟩ 0 REG_EEPROM1
        7).2.2.countP Ev.isBusTxn = 4) := by
  decide

/-- C3 (amended): `writeEEPROM` on a valid slot performs exactly three
transport transactions in order — unlock-write of the unlock sentinel
0x8000 (high bit set) to the lock-control register, data-write of the
value to the slot register, lock-write of all-zero to the lock-control
register — with an unconditional 2-time-unit settle-wait after the
unlock-write, a 10-time-unit programming wait after the data-write, and
a trailing 2-time-unit delay after the lock-write; a failure of the
unlock-write or of the data-write stops the sequence immediately and is
returned as failure. -/
theorem claim_C3 (bus : Bus) (dev : Facade) (n slot value : Nat)
    (hslot : slot = REG_EEPROM1 ∨ slot = REG_EEPROM2 ∨ slot = REG_EEPROM3) :
    (bus.writeAt dev.address n REG_EEPROM_UL 32768 = false →
      writeEEPROM bus dev n slot value =
        (false, n + 1, [Ev.write dev.address REG_EEPROM_UL 32768 false])) ∧
    (bus.writeAt dev.address n REG_EEPROM_UL 32768 = true →
      bus.writeAt dev.address (n + 1) slot (value % 65536) = false →
      writeEEPROM bus dev n slot value =
        (false, n + 2,
          [Ev.write dev.address REG_EEPROM_UL 32768 true, Ev.wait 2,
           Ev.write dev.address slot (value % 65536) false])) ∧
    (bus.writeAt dev.address n REG_EEPROM_UL 32768 = true →
      bus.writeAt dev.address (n + 1) slot (value % 65536) = true →
      bus.writeAt dev.address (n + 2) REG_EEPROM_UL 0 = true →
      writeEEPROM bus dev n slot value =
        (true, n + 3,
          [Ev.write dev.address REG_EEPROM_UL 32768 true, Ev.wait 2,
           Ev.write dev.address slot (value % 65536) true, Ev.wait 10,
           Ev.write dev.address REG_EEPROM_UL 0 true, Ev.wait 2]) ∧
      (writeEEPROM bus dev n slot value).2.2.countP Ev.isBusTxn = 3) := by
  have hvalid : ¬ (slot ≠ REG_EEPROM1 ∧ slot ≠ REG_EEPROM2 ∧ slot ≠ REG_EEPROM3) := by
    rcases hslot with h | h | h <;> simp [h]
  refine ⟨?_, ?_, ?_⟩
  · intro hU
    simp [writeEEPROM, hvalid, unlockEEPROM, writeReg, hU]
  · intro hU hD
    simp [writeEEPROM, hvalid, unlockEEPROM, writeReg, hU, hD]
  · intro hU hD hL
    have htr : writeEEPROM bus dev n slot value =
        (true, n + 3,
          [Ev.write dev.address REG_EEPROM_UL 32768 true, Ev.wait 2,
           Ev.write dev.address slot (value % 65536) true, Ev.wait 10,
           Ev.write dev.address REG_EEPROM_UL 0 true, Ev.wait 2]) := by
      simp [writeEEPROM, hvalid, unlockEEPROM, lockEEPROM, writeReg, hU, hD, hL]
    refine ⟨htr, ?_⟩
    rw [htr]
    rfl

/-- Concrete instance of C3 (amended): all-acknowledging bus, slot
0x05, value 7, device address 0x48. -/
theorem claim_C3_witness :
    writeEEPROM ⟨fun _ _ _ => some 0, fun _ _ _ _ => true⟩ ⟨0, 0x48⟩ 0 REG_EEPROM1 7 =
      (true, 3,
        [Ev.write 0x48 REG_EEPROM_UL 32768 true, Ev.wait 2,
         Ev.write 0x48 REG_EEPROM1 7 true, Ev.wait 10,
         Ev.write 0x48 REG_EEPROM_UL 0 true, Ev.wait 2]) :=
  ((claim_C3 ⟨fun _ _ _ => some 0, fun _ _ _ _ => true⟩ ⟨0, 0x48⟩ 0 REG_EEPROM1 7
    (Or.inl rfl)).2.2 rfl rfl rfl).1

/-- C4 counterexample: on a bus that acknowledges the unlock-write and
the data-write but fails the final lock-write (transaction index 2),
`writeEEPROM` still returns success — the lock failure is not surfaced
to the caller, contrary to the claim that it is reported. -/
theorem claim_C4_counterexample :
    (writeEEPROM ⟨fun _ _ _ => some 0, fun _ k _ _ => k != 2⟩ ⟨0, 0x48⟩ 0 REG_EEPROM1 7).1 =
        true ∧
    (writeEEPROM ⟨fun _ _ _ => some 0, fun _ k _ _ => k != 2⟩ ⟨0, 0x48⟩ 0 REG_EEPROM1
        7).2.2 =
      [Ev.write 0x48 REG_EEPROM_UL 32768 true, Ev.wait 2,
       Ev.write 0x48 REG_EEPROM1 7 true, Ev.wait 10,
       Ev.write 0x48 REG_EEPROM_UL 0 false] := by
  decide

/-- C4 (amended): if the unlock-write and the data-write succeed, the
slot write is not rolled back (it stays in the transaction sequence)
and `writeEEPROM` returns success regardless of the lock-write's
outcome — the source discards `lockEEPROM()`'s result, so a lock
failure is ignored, not reported; the trace still records the
lock-write with the bus's actual response. -/
theorem claim_C4 (bus : Bus) (dev : Facade) (n slot value : Nat)
    (hslot : slot = REG_EEPROM1 ∨ slot = REG_EEPROM2 ∨ slot = REG_EEPROM3)
    (hU : bus.writeAt dev.address n REG_EEPROM_UL 32768 = true)
    (hD : bus.writeAt dev.address (n + 1) slot (value % 65536) = true) :
    (writeEEPROM bus dev n slot value).1 = true ∧
    (writeEEPROM bus dev n slot value).2.2 =
      [Ev.write dev.address REG_EEPROM_UL 32768 true, Ev.wait 2,
       Ev.write dev.address slot (value % 65536) true, Ev.wait 10] ++
      (lockEEPROM bus dev (n + 2)).2.2 ∧
    (lockEEPROM bus dev (n + 2)).2.2.take 1 =
      [Ev.write dev.address REG_EEPROM_UL 0 (bus.writeAt dev.address (n + 2) REG_EEPROM_UL 0)] := by
  have hvalid : ¬ (slot ≠ REG_EEPROM1 ∧ slot ≠ REG_EEPROM2 ∧ slot ≠ REG_EEPROM3) := by
    rcases hslot with h | h | h <;> simp [h]
  refine ⟨?_, ?_, ?_⟩
  · simp [writeEEPROM, hvalid, unlockEEPROM, writeReg, hU, hD]
  · simp [writeEEPROM, hvalid, unlockEEPROM, writeReg, hU, hD]
  · cases hL : bus.writeAt dev.address (n + 2) REG_EEPROM_UL 0 <;>
      simp [lockEEPROM, writeReg, hL]

/-- Concrete instance of C4 (amended) on the lock-failing bus. -/
theorem claim_C4_witness :
    (writeEEPROM ⟨fun _ _ _ => some 0, fun _ k _ _ => k != 2⟩ ⟨0, 0x48⟩ 0 REG_EEPROM1 7).1 =
      true :=
  (claim_C4 ⟨fun _ _ _ => some 0, fun _ k _ _ => k != 2⟩ ⟨0, 0x48⟩ 0 REG_EEPROM1 7
    (Or.inl rfl) rfl rfl).1

/-! ### Out-parameters untouched on failure (claim C8) -/

/-- C8: every operation returning a value through an output reference
parameter assigns it only after all fallible steps succeed — whenever
the operation reports failure, the output parameter holds its original
value. -/
theorem claim_C8 (bus : Bus) (dev : Facade) (n reg : Nat) (i0 : Int) (q0 : ℚ) (v0 : Nat) :
    ((readRawTemperature bus dev n i0).1 = false →
      (readRawTemperature bus dev n i0).2.1 = i0) ∧
    ((readTemperatureC bus dev n q0).1 = false → (readTemperatureC bus dev n q0).2.1 = q0) ∧
    ((readTemperatureF bus dev n q0).1 = false → (readTemperatureF bus dev n q0).2.1 = q0) ∧
    ((readConfig bus dev n v0).1 = false → (readConfig bus dev n v0).2.1 = v0) ∧
    ((getConversionRate bus dev n v0).1 = false → (getConversionRate bus dev n v0).2.1 = v0) ∧
    ((getAveraging bus dev n v0).1 = false → (getAveraging bus dev n v0).2.1 = v0) ∧
    ((getMode bus dev n v0).1 = false → (getMode bus dev n v0).2.1 = v0) ∧
    ((getHighLimit bus dev n q0).1 = false → (getHighLimit bus dev n q0).2.1 = q0) ∧
    ((getLowLimit bus dev n q0).1 = false → (getLowLimit bus dev n q0).2.1 = q0) ∧
    ((getOffset bus dev n q0).1 = false → (getOffset bus dev n q0).2.1 = q0) ∧
    ((getThermAlertMode bus dev n v0).1 = false → (getThermAlertMode bus dev n v0).2.1 = v0) ∧
    ((getAlertPolarity bus dev n v0).1 = false → (getAlertPolarity bus dev n v0).2.1 = v0) ∧
    ((readEEPROM bus dev n reg v0).1 = false → (readEEPROM bus dev n reg v0).2.1 = v0) ∧
    ((getDeviceID bus dev n v0).1 = false → (getDeviceID bus dev n v0).2.1 = v0) := by
  refine ⟨?_, ?_, ?_, ?_, ?_, ?_, ?_, ?_, ?_, ?_, ?_, ?_, ?_, ?_⟩
  · cases hb : bus.readAt dev.address n REG_TEMP <;>
      simp [readRawTemperature, readReg, hb]
  · cases hb : bus.readAt dev.address n REG_TEMP <;>
      simp [readTemperatureC, readRawTemperature, readReg, hb]
  · cases hb : bus.readAt dev.address n REG_TEMP <;>
      simp [readTemperatureF, readTemperatureC, readRawTemperature, readReg, hb]
  · cases hb : bus.readAt dev.address n REG_CONFIG <;>
      simp [readConfig, readReg, hb]
  · cases hb : bus.readAt dev.address n REG_CONFIG <;>
      simp [getConversionRate, readConfig, readReg, hb]
  · cases hb : bus.readAt dev.address n REG_CONFIG <;>
      simp [getAveraging, readConfig, readReg, hb]
  · cases hb : bus.readAt dev.address n REG_CONFIG <;>
      simp [getMode, readConfig, readReg, hb]
  · cases hb : bus.readAt dev.address n REG_T_HIGH <;>
      simp [getHighLimit, readReg, hb]
  · cases hb : bus.readAt dev.address n REG_T_LOW <;>
      simp [getLowLimit, readReg, hb]
  · cases hb : bus.readAt dev.address n REG_TEMP_OFFSET <;>
      simp [getOffset, readReg, hb]
  · cases hb : bus.readAt dev.address n REG_CONFIG <;>
      simp [getThermAlertMode, readConfig, readReg, hb]
  · cases hb : bus.readAt dev.address n REG_CONFIG <;>
      simp [getAlertPolarity, readConfig, readReg, hb]
  · by_cases hr : reg ≠ REG_EEPROM1 ∧ reg ≠ REG_EEPROM2 ∧ reg ≠ REG_EEPROM3
    · simp [readEEPROM, hr]
    · cases hb : bus.readAt dev.address n reg <;>
        simp [readEEPROM, hr, readReg, hb]
  · cases hb : bus.readAt dev.address n REG_DEVICE_ID <;>
      simp [getDeviceID, readReg, hb]

/-- Concrete instance of C8: on a bus whose reads all fail,
`readConfig` leaves the out-param at its initial value 5. -/
theorem claim_C8_witness :
    (readConfig ⟨fun _ _ _ => none, fun _ _ _ _ => false⟩ ⟨0, 0x48⟩ 0 5).2.1 = 5 :=
  (claim_C8 ⟨fun _ _ _ => none, fun _ _ _ _ => false⟩ ⟨0, 0x48⟩ 0 0 0 0 5).2.2.2.1 rfl

/-! ### Device-handle binding (claim C10) -/

/-- Every bus transaction in the trace is addressed to `a` (waits carry
no address). -/
def addrOk (a : Nat) (l : List Ev) : Prop :=
  ∀ e ∈ l, e.evAddr = none ∨ e.evAddr = some a

/-- Traces concatenate addressing. -/
lemma addrOk_append (a : Nat) (l1 l2 : List Ev) (h1 : addrOk a l1) (h2 : addrOk a l2) :
    addrOk a (l1 ++ l2) := by
  intro e he
  rcases List.mem_append.1 he with h | h
  · exact h1 e h
  · exact h2 e h

/-- `readReg` transacts on the stored address. -/
lemma readReg_addrOk (bus : Bus) (dev : Facade) (n reg v0 : Nat) :
    addrOk dev.address (readReg bus dev n reg v0).2.2.2 := by
  cases hb : bus.readAt dev.address n reg <;> simp [readReg, hb, addrOk, Ev.evAddr]

/-- `writeReg` transacts on the stored address. -/
lemma writeReg_addrOk (bus : Bus) (dev : Facade) (n reg v : Nat) :
    addrOk dev.address (writeReg bus dev n reg v).2.2 := by
  simp [writeReg, addrOk, Ev.evAddr]

/-- `unlockEEPROM` transacts on the stored address. -/
lemma unlockEEPROM_addrOk (bus : Bus) (dev : Facade) (n : Nat) :
    addrOk dev.address (unlockEEPROM bus dev n).2.2 := by
  cases hb : bus.writeAt dev.address n REG_EEPROM_UL (0x8000 % 65536) <;>
    simp [unlockEEPROM, writeReg, hb, addrOk, Ev.evAddr]

/-- `lockEEPROM` transacts on the stored address. -/
lemma lockEEPROM_addrOk (bus : Bus) (dev : Facade) (n : Nat) :
    addrOk dev.address (lockEEPROM bus dev n).2.2 := by
  cases hb : bus.writeAt dev.address n REG_EEPROM_UL (0x0000 % 65536) <;>
    simp [lockEEPROM, writeReg, hb, addrOk, Ev.evAddr]

/-- C10: `begin` stores exactly the address passed to it (leaving the
stored bus reference unchanged) and addresses its own identity read to
it, and every other public operation leaves the facade untouched (it is
a pure function of the facade) and addresses every one of its register
transactions to the stored address — so after `begin(addr, ...)`, every
subsequent transaction of every operation goes to `addr`. -/
theorem claim_C10 (bus : Bus) (dev : Facade) (a n reg v : Nat) (i0 : Int) (q0 t : ℚ) :
    ((begin bus dev a n).2.1 = { busId := dev.busId, address := a } ∧
      addrOk a (begin bus dev a n).2.2.2) ∧
    addrOk dev.address (readRawTemperature bus dev n i0).2.2.2 ∧
    addrOk dev.address (readTemperatureC bus dev n q0).2.2.2 ∧
    addrOk dev.address (readTemperatureF bus dev n q0).2.2.2 ∧
    addrOk dev.address (readConfig bus dev n v).2.2.2 ∧
    addrOk dev.address (writeConfig bus dev n v).2.2 ∧
    addrOk dev.address (reset bus dev n).2.2 ∧
    addrOk dev.address (setConversionRate bus dev n v).2.2 ∧
    addrOk dev.address (getConversionRate bus dev n v).2.2.2 ∧
    addrOk dev.address (setAveraging bus dev n v).2.2 ∧
    addrOk dev.address (getAveraging bus dev n v).2.2.2 ∧
    addrOk dev.address (setMode bus dev n v).2.2 ∧
    addrOk dev.address (getMode bus dev n v).2.2.2 ∧
    addrOk dev.address (setHighLimit bus dev n t).2.2 ∧
    addrOk dev.address (setLowLimit bus dev n t).2.2 ∧
    addrOk dev.address (getHighLimit bus dev n q0).2.2.2 ∧
    addrOk dev.address (getLowLimit bus dev n q0).2.2.2 ∧
    addrOk dev.address (setOffset bus dev n t).2.2 ∧
    addrOk dev.address (getOffset bus dev n q0).2.2.2 ∧
    addrOk dev.address (setAlertPolarity bus dev n v).2.2 ∧
    addrOk dev.address (getAlertPolarity bus dev n v).2.2.2 ∧
    addrOk dev.address (setThermAlertMode bus dev n v).2.2 ∧
    addrOk dev.address (getThermAlertMode bus dev n v).2.2.2 ∧
    addrOk dev.address (readEEPROM bus dev n reg v).2.2.2 ∧
    addrOk dev.address (writeEEPROM bus dev n reg v).2.2 ∧
    addrOk dev.address (getDeviceID bus dev n v).2.2.2 := by
  refine ⟨⟨?_, ?_⟩, ?_, ?_, ?_, ?_, ?_, ?_, ?_, ?_, ?_, ?_, ?_, ?_, ?_, ?_, ?_, ?_, ?_, ?_,
    ?_, ?_, ?_, ?_, ?_, ?_, ?_⟩
  · cases hb : bus.readAt a n REG_DEVICE_ID <;>
      simp [begin, getDeviceID, readReg, hb] <;> split <;> rfl
  · have h := readReg_addrOk bus ⟨dev.busId, a⟩ n REG_DEVICE_ID 0
    cases hb : bus.readAt a n REG_DEVICE_ID <;>
      simp only [begin, getDeviceID, readReg, hb] at h ⊢ <;>
      first
        | exact h
        | (split <;> exact h)
  · exact fun e he => (readReg_addrOk bus dev n REG_TEMP 0) e (by
      revert he
      cases hb : bus.readAt dev.address n REG_TEMP <;>
        simp [readRawTemperature, readReg, hb])
  · exact fun e he => (readReg_addrOk bus dev n REG_TEMP 0) e (by
      revert he
      cases hb : bus.readAt dev.address n REG_TEMP <;>
        simp [readTemperatureC, readRawTemperature, readReg, hb])
  · exact fun e he => (readReg_addrOk bus dev n REG_TEMP 0) e (by
      revert he
      cases hb : bus.readAt dev.address n REG_TEMP <;>
        simp [readTemperatureF, readTemperatureC, readRawTemperature, readReg, hb])
  · exact readReg_addrOk bus dev n REG_CONFIG v
  · exact writeReg_addrOk bus dev n REG_CONFIG v
  · exact writeReg_addrOk bus dev n REG_CONFIG 0x8000
  · cases hb : bus.readAt dev.address n REG_CONFIG <;>
      simp [setConversionRate, readConfig, readReg, writeConfig, writeReg, hb, addrOk,
        Ev.evAddr]
  · exact fun e he => (readReg_addrOk bus dev n REG_CONFIG 0) e (by
      revert he
      cases hb : bus.readAt dev.address n REG_CONFIG <;>
        simp [getConversionRate, readConfig, readReg, hb])
  · cases hb : bus.readAt dev.address n REG_CONFIG <;>
      simp [setAveraging, readConfig, readReg, writeConfig, writeReg, hb, addrOk, Ev.evAddr]
  · exact fun e he => (readReg_addrOk bus dev n REG_CONFIG 0) e (by
      revert he
      cases hb : bus.readAt dev.address n REG_CONFIG <;>
        simp [getAveraging, readConfig, readReg, hb])
  · cases hb : bus.readAt dev.address n REG_CONFIG <;>
      simp [setMode, readConfig, readReg, writeConfig, writeReg, hb, addrOk, Ev.evAddr]
  · exact fun e he => (readReg_addrOk bus dev n REG_CONFIG 0) e (by
      revert he
      cases hb : bus.readAt dev.address n REG_CONFIG <;>
        simp [getMode, readConfig, readReg, hb])
  · exact writeReg_addrOk bus dev n REG_T_HIGH _
  · exact writeReg_addrOk bus dev n REG_T_LOW _
  · exact fun e he => (readReg_addrOk bus dev n REG_T_HIGH 0) e (by
      revert he
      cases hb : bus.readAt dev.address n REG_T_HIGH <;> simp [getHighLimit, readReg, hb])
  · exact fun e he => (readReg_addrOk bus dev n REG_T_LOW 0) e (by
      revert he
      cases hb : bus.readAt dev.address n REG_T_LOW <;> simp [getLowLimit, readReg, hb])
  · exact writeReg_addrOk bus dev n REG_TEMP_OFFSET _
  · exact fun e he => (readReg_addrOk bus dev n REG_TEMP_OFFSET 0) e (by
      revert he
      cases hb : bus.readAt dev.address n REG_TEMP_OFFSET <;> simp [getOffset, readReg, hb])
  · cases hb : bus.readAt dev.address n REG_CONFIG <;>
      simp [setAlertPolarity, readConfig, readReg, writeConfig, writeReg, hb, addrOk,
        Ev.evAddr]
  · exact fun e he => (readReg_addrOk bus dev n REG_CONFIG 0) e (by
      revert he
      cases hb : bus.readAt dev.address n REG_CONFIG <;>
        simp [getAlertPolarity, readConfig, readReg, hb])
  · cases hb : bus.readAt dev.address n REG_CONFIG <;>
      simp [setThermAlertMode, readConfig, readReg, writeConfig, writeReg, hb, addrOk,
        Ev.evAddr]
  · exact fun e he => (readReg_addrOk bus dev n REG_CONFIG 0) e (by
      revert he
      cases hb : bus.readAt dev.address n REG_CONFIG <;>
        simp [getThermAlertMode, readConfig, readReg, hb])
  · by_cases hr : reg ≠ REG_EEPROM1 ∧ reg ≠ REG_EEPROM2 ∧ reg ≠ REG_EEPROM3
    · simp [readEEPROM, hr, addrOk]
    · intro e he
      exact (readReg_addrOk bus dev n reg v) e (by
        revert he
        simp [readEEPROM, hr])
  · by_cases hr : reg ≠ REG_EEPROM1 ∧ reg ≠ REG_EEPROM2 ∧ reg ≠ REG_EEPROM3
    · simp [writeEEPROM, hr, addrOk]
    · cases hU : bus.writeAt dev.address n REG_EEPROM_UL 32768 <;>
        cases hD : bus.writeAt dev.address (n + 1) reg (v % 65536) <;>
        cases hL : bus.writeAt dev.address (n + 2) REG_EEPROM_UL 0 <;>
        simp [writeEEPROM, hr, unlockEEPROM, lockEEPROM, writeReg, hU, hD, hL, addrOk,
          Ev.evAddr]
  · exact readReg_addrOk bus dev n REG_DEVICE_ID v

/-- Concrete instance of C10: `begin` on address 0x4B rebinds the
stored address and keeps the stored bus reference. -/
theorem claim_C10_witness :
    (begin ⟨fun _ _ _ => some 0x0117, fun _ _ _ _ => true⟩ ⟨7, 0x48⟩ 0x4B 0).2.1 =
      { busId := 7, address := 0x4B } :=
  (claim_C10 ⟨fun _ _ _ => some 0x0117, fun _ _ _ _ => true⟩ ⟨7, 0x48⟩ 0x4B 0 0 0 0 0 0).1.1

end TMP11x
